import Mathlib

/-!
Verification of the MoE performance-model core of the `impala_blog` widget
(`public/scripts/moe-widget.js`): the analytic cost model, the two-batch
pipeline scheduler, and the sampled-curve crossover finder.

JavaScript numbers are modelled as real numbers.  Where a claim is about
IEEE-754 finiteness, a second embedding tracks non-finite results with
`Option` (`none` = NaN or ±Infinity).
-/

namespace MoEWidget

noncomputable section

-- MoE architecture constants (`MOE_CONFIG` in the source).
namespace MOE_CONFIG

def HIDDEN_DIMENSION : ℝ := 6144

def BYTES_PER_ELEMENT : ℝ := 2

def TOP_K_EXPERTS : ℝ := 2

end MOE_CONFIG

/-- `calculateStragglerFactor(epRanks, skew)` from the source:
structural imbalance times logarithmic coordination penalty. -/
def calculateStragglerFactor (epRanks skew : ℝ) : ℝ :=
  let structuralImbalance := 1 + 2.2 * skew
  let coordinationPenalty := 1 + 0.12 * Real.logb 2 epRanks
  structuralImbalance * coordinationPenalty

/-- `calculateBytesPerToken()` from the source. -/
def calculateBytesPerToken : ℝ :=
  MOE_CONFIG.TOP_K_EXPERTS * MOE_CONFIG.HIDDEN_DIMENSION * MOE_CONFIG.BYTES_PER_ELEMENT

/-- `calculateDispatchTimeMs(tokenCount, epRanks, latencyMicroseconds, bandwidthGBps)`
from the source. -/
def calculateDispatchTimeMs (tokenCount epRanks latencyMicroseconds bandwidthGBps : ℝ) : ℝ :=
  let latencyMs := latencyMicroseconds / 1000
  let bandwidthBytesPerSec := bandwidthGBps * 1e9
  let totalBytes := tokenCount * calculateBytesPerToken / epRanks
  let transferTimeMs := totalBytes / bandwidthBytesPerSec * 1000
  latencyMs + transferTimeMs

/-- `calculateComputeTimeMs(tokenCount, epRanks, computeUsPerToken, skew)`
from the source. -/
def calculateComputeTimeMs (tokenCount epRanks computeUsPerToken skew : ℝ) : ℝ :=
  let routedTokens := tokenCount * MOE_CONFIG.TOP_K_EXPERTS
  let meanTokensPerExpert := routedTokens / epRanks
  let randomVariationFactor := 1 + 3.2 / Real.sqrt (max 1 tokenCount)
  let stragglerFactor := calculateStragglerFactor epRanks skew
  let maxExpertLoad := meanTokensPerExpert * randomVariationFactor * stragglerFactor
  maxExpertLoad * computeUsPerToken / 1000

/-- The timing record returned by `calculateMoETimings`. -/
structure Timings where
  dispatchMs : ℝ
  computeMs : ℝ
  combineMs : ℝ
  sequentialTotalMs : ℝ
  dboOverlappedMs : ℝ

/-- `calculateMoETimings(tokenCount, epRanks, latencyUs, bandwidthGBps,
computeUsPerToken, skew)` from the source. -/
def calculateMoETimings (tokenCount epRanks latencyUs bandwidthGBps computeUsPerToken skew : ℝ) :
    Timings :=
  let dispatchMs := calculateDispatchTimeMs tokenCount epRanks latencyUs bandwidthGBps
  let computeMs := calculateComputeTimeMs tokenCount epRanks computeUsPerToken skew
  let combineMs := dispatchMs
  { dispatchMs := dispatchMs
    computeMs := computeMs
    combineMs := combineMs
    sequentialTotalMs := dispatchMs + computeMs + combineMs
    dboOverlappedMs := max (dispatchMs + combineMs) computeMs }

/-- Pipeline phase of a schedule block. -/
inductive Phase where
  | dispatch
  | compute
  | combine
deriving DecidableEq

/-- One timed block of the visual schedule (`{ phase, start, duration }`
in the source). -/
structure ScheduleBlock where
  phase : Phase
  start : ℝ
  duration : ℝ

/-- End instant of a schedule block. -/
def ScheduleBlock.endMs (blk : ScheduleBlock) : ℝ := blk.start + blk.duration

/-- The `{ batchA, batchB }` record returned by `_buildSchedule`. -/
structure Schedule where
  batchA : List ScheduleBlock
  batchB : List ScheduleBlock

/-- `TimelineRenderer._buildSchedule(timings, options)` from the source,
with `options.enableDBO` and `options.enableSplit` passed explicitly. -/
def buildSchedule (timings : Timings) (enableDBO enableSplit : Bool) : Schedule :=
  let d := if enableSplit then timings.dispatchMs / 2 else timings.dispatchMs
  let c := if enableSplit then timings.computeMs / 2 else timings.computeMs
  let b := if enableSplit then timings.combineMs / 2 else timings.combineMs
  if !enableDBO then
    { batchA := [⟨Phase.dispatch, 0, d⟩, ⟨Phase.compute, d, c⟩, ⟨Phase.combine, d + c, b⟩]
      batchB := [] }
  else
    let dispatchA := 0
    let dispatchB := dispatchA + d
    let computeA := dispatchA + d
    let computeB := max (dispatchB + d) (computeA + c)
    let combineA := max (computeA + c) (dispatchB + d)
    let combineB := max (computeB + c) (combineA + b)
    { batchA := [⟨Phase.dispatch, dispatchA, d⟩, ⟨Phase.compute, computeA, c⟩,
                 ⟨Phase.combine, combineA, b⟩]
      batchB := [⟨Phase.dispatch, dispatchB, d⟩, ⟨Phase.compute, computeB, c⟩,
                 ⟨Phase.combine, combineB, b⟩] }

/-- `TimelineRenderer._calculateTotalDuration(schedule, enableDBO)` from the
source; the out-of-bounds access on an empty batch (JS `undefined`) is
modelled by `none`. -/
def calculateTotalDuration (schedule : Schedule) (enableDBO : Bool) : Option ℝ :=
  if !enableDBO then
    schedule.batchA.getLast?.map fun lastBlock => lastBlock.start + lastBlock.duration
  else
    schedule.batchA.getLast?.bind fun lastA =>
      schedule.batchB.getLast?.map fun lastB =>
        max (lastA.start + lastA.duration) (lastB.start + lastB.duration)

/-- One sample of the DeepEP cost curves (`{ tokens, llTime, htTime }` in the
source's `_generateCurveData`). -/
structure CurvePoint where
  tokens : ℝ
  llTime : ℝ
  htTime : ℝ

/-- The crossover scan inside `DeepEPRenderer._drawCurveLines`: the first
adjacent sample pair where `llTime - htTime` changes sign from negative to
nonnegative yields a log-interpolated token count; otherwise `null`. -/
def findCrossoverTokens : List CurvePoint → Option ℝ
  | p1 :: p2 :: rest =>
    let diff1 := p1.llTime - p1.htTime
    let diff2 := p2.llTime - p2.htTime
    if diff1 < 0 ∧ 0 ≤ diff2 then
      let t := |diff1| / (|diff1| + |diff2|)
      let logT1 := Real.log p1.tokens
      let logT2 := Real.log p2.tokens
      some (Real.exp (logT1 + t * (logT2 - logT1)))
    else
      findCrossoverTokens (p2 :: rest)
  | _ => none

/-- JavaScript division with finiteness tracking: a zero divisor yields a
non-finite IEEE-754 result (±Infinity or NaN), modelled as `none`. -/
def jsDiv (x y : ℝ) : Option ℝ := if y = 0 then none else some (x / y)

/-- `calculateDispatchTimeMs` re-traced with finiteness tracking: both
divisions of the source are performed with `jsDiv`, and a non-finite
intermediate value propagates to the result (JS arithmetic on ±Infinity/NaN
stays non-finite in this expression). -/
def calculateDispatchTimeMsFinite (tokenCount epRanks latencyUs bandwidthGBps : ℝ) :
    Option ℝ :=
  let latencyMs := latencyUs / 1000
  let bandwidthBytesPerSec := bandwidthGBps * 1e9
  (jsDiv (tokenCount * calculateBytesPerToken) epRanks).bind fun totalBytes =>
    (jsDiv totalBytes bandwidthBytesPerSec).map fun transferRatio =>
      latencyMs + transferRatio * 1000

end

/-! ## Shared helper lemmas -/

lemma calculateBytesPerToken_eq : calculateBytesPerToken = 24576 := by
  norm_num [calculateBytesPerToken, MOE_CONFIG.TOP_K_EXPERTS, MOE_CONFIG.HIDDEN_DIMENSION,
    MOE_CONFIG.BYTES_PER_ELEMENT]

lemma calculateDispatchTimeMs_nonneg {tokenCount epRanks latencyUs bandwidthGBps : ℝ}
    (htc : 0 ≤ tokenCount) (hP : 1 ≤ epRanks) (hlat : 0 ≤ latencyUs)
    (hbw : 0 < bandwidthGBps) :
    0 ≤ calculateDispatchTimeMs tokenCount epRanks latencyUs bandwidthGBps := by
  have hP0 : (0:ℝ) < epRanks := lt_of_lt_of_le one_pos hP
  have hK : (0:ℝ) ≤ calculateBytesPerToken := by rw [calculateBytesPerToken_eq]; norm_num
  unfold calculateDispatchTimeMs
  have h1 : (0:ℝ) ≤ latencyUs / 1000 := by positivity
  have h2 : (0:ℝ) ≤ tokenCount * calculateBytesPerToken / epRanks / (bandwidthGBps * 1e9) * 1000 := by
    have hb9 : (0:ℝ) < bandwidthGBps * 1e9 := by positivity
    have ht : (0:ℝ) ≤ tokenCount * calculateBytesPerToken / epRanks :=
      div_nonneg (mul_nonneg htc hK) hP0.le
    positivity
  linarith

lemma calculateComputeTimeMs_nonneg {tokenCount epRanks computeUsPerToken skew : ℝ}
    (htc : 0 ≤ tokenCount) (hP : 1 ≤ epRanks) (hcu : 0 ≤ computeUsPerToken)
    (hsk : 0 ≤ skew) :
    0 ≤ calculateComputeTimeMs tokenCount epRanks computeUsPerToken skew := by
  have hP0 : (0:ℝ) < epRanks := lt_of_lt_of_le one_pos hP
  have hmean : (0:ℝ) ≤ tokenCount * MOE_CONFIG.TOP_K_EXPERTS / epRanks := by
    have : (0:ℝ) ≤ MOE_CONFIG.TOP_K_EXPERTS := by norm_num [MOE_CONFIG.TOP_K_EXPERTS]
    exact div_nonneg (mul_nonneg htc this) hP0.le
  have hrvf : (0:ℝ) ≤ 1 + 3.2 / Real.sqrt (max 1 tokenCount) := by
    have : (0:ℝ) ≤ 3.2 / Real.sqrt (max 1 tokenCount) :=
      div_nonneg (by norm_num) (Real.sqrt_nonneg _)
    linarith
  have hsf : (0:ℝ) ≤ calculateStragglerFactor epRanks skew := by
    unfold calculateStragglerFactor
    have hlogb : (0:ℝ) ≤ Real.logb 2 epRanks := Real.logb_nonneg one_lt_two hP
    have h1 : (0:ℝ) ≤ 1 + 2.2 * skew := by linarith
    have h2 : (0:ℝ) ≤ 1 + 0.12 * Real.logb 2 epRanks := by linarith
    exact mul_nonneg h1 h2
  unfold calculateComputeTimeMs
  have := mul_nonneg (mul_nonneg (mul_nonneg hmean hrvf) hsf) hcu
  positivity

lemma buildSchedule_dbo_eq (t : Timings) :
    buildSchedule t true false =
      { batchA := [⟨Phase.dispatch, 0, t.dispatchMs⟩,
                   ⟨Phase.compute, t.dispatchMs, t.computeMs⟩,
                   ⟨Phase.combine,
                     max (t.dispatchMs + t.computeMs) (t.dispatchMs + t.dispatchMs),
                     t.combineMs⟩]
        batchB := [⟨Phase.dispatch, t.dispatchMs, t.dispatchMs⟩,
                   ⟨Phase.compute,
                     max (t.dispatchMs + t.dispatchMs) (t.dispatchMs + t.computeMs),
                     t.computeMs⟩,
                   ⟨Phase.combine,
                     max (max (t.dispatchMs + t.dispatchMs) (t.dispatchMs + t.computeMs)
                         + t.computeMs)
                       (max (t.dispatchMs + t.computeMs) (t.dispatchMs + t.dispatchMs)
                         + t.combineMs),
                     t.combineMs⟩] } := by
  simp [buildSchedule]

lemma sqrt_max_one_256 : Real.sqrt (max 1 (256:ℝ)) = 16 := by
  rw [max_eq_right (by norm_num : (1:ℝ) ≤ 256),
    show (256:ℝ) = 16 ^ 2 by norm_num, Real.sqrt_sq (by norm_num : (0:ℝ) ≤ 16)]

lemma sqrt_max_one_1048576 : Real.sqrt (max 1 (1048576:ℝ)) = 1024 := by
  rw [max_eq_right (by norm_num : (1:ℝ) ≤ 1048576),
    show (1048576:ℝ) = 1024 ^ 2 by norm_num, Real.sqrt_sq (by norm_num : (0:ℝ) ≤ 1024)]

lemma logb_two_sixteen : Real.logb 2 (16:ℝ) = 4 := by
  rw [show (16:ℝ) = 2 ^ (4:ℕ) by norm_num, Real.logb_pow,
    Real.logb_self_eq_one one_lt_two]
  norm_num

/-! ## Claim theorems -/

/-- Claim C1: for valid inputs (parameters in their documented domains, with
`epRanks ≥ 1` and `bandwidthGBps > 0`), `calculateMoETimings` returns
`sequentialTotalMs = dispatchMs + computeMs + combineMs` and
`dboOverlappedMs = max (dispatchMs + combineMs) computeMs`, and consequently
`dboOverlappedMs ≤ sequentialTotalMs` (overlap never hurts). -/
theorem C1_aggregate_and_overlap
    (tokenCount epRanks latencyUs bandwidthGBps computeUsPerToken skew : ℝ)
    (htc : 0 ≤ tokenCount) (hP : 1 ≤ epRanks) (hlat : 0 ≤ latencyUs)
    (hbw : 0 < bandwidthGBps) (hcu : 0 ≤ computeUsPerToken) (hsk : 0 ≤ skew) :
    (calculateMoETimings tokenCount epRanks latencyUs bandwidthGBps computeUsPerToken
        skew).sequentialTotalMs =
      (calculateMoETimings tokenCount epRanks latencyUs bandwidthGBps computeUsPerToken
        skew).dispatchMs +
      (calculateMoETimings tokenCount epRanks latencyUs bandwidthGBps computeUsPerToken
        skew).computeMs +
      (calculateMoETimings tokenCount epRanks latencyUs bandwidthGBps computeUsPerToken
        skew).combineMs ∧
    (calculateMoETimings tokenCount epRanks latencyUs bandwidthGBps computeUsPerToken
        skew).dboOverlappedMs =
      max ((calculateMoETimings tokenCount epRanks latencyUs bandwidthGBps computeUsPerToken
          skew).dispatchMs +
        (calculateMoETimings tokenCount epRanks latencyUs bandwidthGBps computeUsPerToken
          skew).combineMs)
        ((calculateMoETimings tokenCount epRanks latencyUs bandwidthGBps computeUsPerToken
          skew).computeMs) ∧
    (calculateMoETimings tokenCount epRanks latencyUs bandwidthGBps computeUsPerToken
        skew).dboOverlappedMs ≤
      (calculateMoETimings tokenCount epRanks latencyUs bandwidthGBps computeUsPerToken
        skew).sequentialTotalMs := by
  refine ⟨rfl, rfl, ?_⟩
  have hd := calculateDispatchTimeMs_nonneg htc hP hlat hbw
  have hc := calculateComputeTimeMs_nonneg htc hP hcu hsk
  show max (calculateDispatchTimeMs tokenCount epRanks latencyUs bandwidthGBps +
      calculateDispatchTimeMs tokenCount epRanks latencyUs bandwidthGBps)
      (calculateComputeTimeMs tokenCount epRanks computeUsPerToken skew) ≤
    calculateDispatchTimeMs tokenCount epRanks latencyUs bandwidthGBps +
      calculateComputeTimeMs tokenCount epRanks computeUsPerToken skew +
      calculateDispatchTimeMs tokenCount epRanks latencyUs bandwidthGBps
  rw [max_le_iff]
  constructor <;> linarith

/-- Concrete instantiation of `C1_aggregate_and_overlap` at the default
parameter set. -/
theorem C1_aggregate_and_overlap_witness :
    (0:ℝ) ≤ 1024 ∧ (1:ℝ) ≤ 16 ∧ (0:ℝ) ≤ 25 ∧ (0:ℝ) < 25 ∧ (0:ℝ) ≤ 0.45 ∧ (0:ℝ) ≤ 0.1 ∧
    ((calculateMoETimings 1024 16 25 25 0.45 0.1).sequentialTotalMs =
      (calculateMoETimings 1024 16 25 25 0.45 0.1).dispatchMs +
      (calculateMoETimings 1024 16 25 25 0.45 0.1).computeMs +
      (calculateMoETimings 1024 16 25 25 0.45 0.1).combineMs ∧
    (calculateMoETimings 1024 16 25 25 0.45 0.1).dboOverlappedMs =
      max ((calculateMoETimings 1024 16 25 25 0.45 0.1).dispatchMs +
        (calculateMoETimings 1024 16 25 25 0.45 0.1).combineMs)
        ((calculateMoETimings 1024 16 25 25 0.45 0.1).computeMs) ∧
    (calculateMoETimings 1024 16 25 25 0.45 0.1).dboOverlappedMs ≤
      (calculateMoETimings 1024 16 25 25 0.45 0.1).sequentialTotalMs) :=
  ⟨by norm_num, by norm_num, by norm_num, by norm_num, by norm_num, by norm_num,
    C1_aggregate_and_overlap 1024 16 25 25 0.45 0.1 (by norm_num) (by norm_num)
      (by norm_num) (by norm_num) (by norm_num) (by norm_num)⟩

/-- Claim C4: for every parameter set, the `Timings` record returned by
`calculateMoETimings` satisfies `combineMs = dispatchMs` exactly. -/
theorem C4_combine_eq_dispatch
    (tokenCount epRanks latencyUs bandwidthGBps computeUsPerToken skew : ℝ) :
    (calculateMoETimings tokenCount epRanks latencyUs bandwidthGBps computeUsPerToken
        skew).combineMs =
      (calculateMoETimings tokenCount epRanks latencyUs bandwidthGBps computeUsPerToken
        skew).dispatchMs := rfl

/-- Claim C3: for every `tokenCount ≥ 0`, `epRanks ≥ 1`,
`computeUsPerToken ≥ 0` and `skew ∈ [0,1]`, the compute time equals
`(tokenCount · topK / epRanks) · (1 + 3.2/√(max 1 tokenCount)) · (1 + 2.2·skew)
· (1 + 0.12·log₂ epRanks) · computeUsPerToken / 1000`, and at `epRanks = 1` the
coordination penalty factor is exactly 1, so the straggler factor degenerates
to the structural imbalance alone (the function is total: no error). -/
theorem C3_compute_time_formula (tokenCount epRanks computeUsPerToken skew : ℝ)
    (htc : 0 ≤ tokenCount) (hP : 1 ≤ epRanks) (hcu : 0 ≤ computeUsPerToken)
    (hsk0 : 0 ≤ skew) (hsk1 : skew ≤ 1) :
    calculateComputeTimeMs tokenCount epRanks computeUsPerToken skew =
      tokenCount * MOE_CONFIG.TOP_K_EXPERTS / epRanks *
        (1 + 3.2 / Real.sqrt (max 1 tokenCount)) *
        (1 + 2.2 * skew) * (1 + 0.12 * Real.logb 2 epRanks) *
        computeUsPerToken / 1000 ∧
    calculateStragglerFactor 1 skew = 1 + 2.2 * skew := by
  constructor
  · unfold calculateComputeTimeMs calculateStragglerFactor
    ring
  · unfold calculateStragglerFactor
    rw [Real.logb_one]
    ring

/-- Concrete instantiation of `C3_compute_time_formula` at
`tokenCount = 4, epRanks = 1, computeUsPerToken = 1, skew = 0`. -/
theorem C3_compute_time_formula_witness :
    (0:ℝ) ≤ 4 ∧ (1:ℝ) ≤ 1 ∧ (0:ℝ) ≤ 1 ∧ (0:ℝ) ≤ 0 ∧ (0:ℝ) ≤ 1 ∧
    (calculateComputeTimeMs 4 1 1 0 =
      4 * MOE_CONFIG.TOP_K_EXPERTS / 1 * (1 + 3.2 / Real.sqrt (max 1 4)) *
        (1 + 2.2 * 0) * (1 + 0.12 * Real.logb 2 1) * 1 / 1000 ∧
      calculateStragglerFactor 1 0 = 1 + 2.2 * 0) :=
  ⟨by norm_num, by norm_num, by norm_num, by norm_num, by norm_num,
    C3_compute_time_formula 4 1 1 0 (by norm_num) (by norm_num) (by norm_num)
      (by norm_num) (by norm_num)⟩

/-- Claim C5 (divergence witness): at `bandwidthGBps = 0` — an input the spec
requires to be rejected — `calculateDispatchTimeMs` divides by a zero
`bandwidthBytesPerSec`, producing a non-finite value (`none` in the
finiteness-tracking embedding) instead of surfacing an error; the enclosing
`calculateMoETimings` is a total function with no validation or error path,
so the non-finite value is returned inside the `Timings` record. -/
theorem C5_zero_bandwidth_not_rejected :
    calculateDispatchTimeMsFinite 1024 16 25 0 = none := by
  unfold calculateDispatchTimeMsFinite jsDiv
  norm_num

/-- Claim C6 (divergence witness): `_buildSchedule` performs no validation —
fed negative `dispatchMs`/`combineMs` durations it still constructs full
schedules for both batches, with the negative durations embedded in the
blocks, instead of rejecting the input. -/
theorem C6_negative_durations_not_rejected :
    (buildSchedule ⟨-1, 1, -1, 1, 1⟩ true false).batchA =
      [⟨Phase.dispatch, 0, -1⟩, ⟨Phase.compute, -1, 1⟩, ⟨Phase.combine, 0, -1⟩] ∧
    (buildSchedule ⟨-1, 1, -1, 1, 1⟩ true false).batchB =
      [⟨Phase.dispatch, -1, -1⟩, ⟨Phase.compute, 0, 1⟩, ⟨Phase.combine, 1, -1⟩] := by
  constructor <;>
    · simp only [buildSchedule]
      norm_num

/-- Claim C7 (counterexample): for the otherwise-valid default parameters,
`tokenCount = 0` does not yield all-zero timings — the dispatch leg keeps the
latency floor `latencyUs / 1000 = 0.025 ≠ 0`. -/
theorem C7_counterexample :
    (calculateMoETimings 0 16 25 25 0.45 0.1).dispatchMs ≠ 0 := by
  show calculateDispatchTimeMs 0 16 25 25 ≠ 0
  unfold calculateDispatchTimeMs
  rw [calculateBytesPerToken_eq]
  norm_num

/-- Claim C7 (amended): for every otherwise-valid parameter set with
`tokenCount = 0`, the transfer and compute components vanish but the latency
floor persists: `computeMs = 0`, `dispatchMs = combineMs = latencyUs / 1000`,
`sequentialTotalMs = dboOverlappedMs = 2 · (latencyUs / 1000)`; all five
timings are zero exactly when `latencyUs = 0`. -/
theorem C7_amended (epRanks latencyUs bandwidthGBps computeUsPerToken skew : ℝ)
    (hP : 1 ≤ epRanks) (hlat : 0 ≤ latencyUs) (hbw : 0 < bandwidthGBps) :
    calculateMoETimings 0 epRanks latencyUs bandwidthGBps computeUsPerToken skew =
      ⟨latencyUs / 1000, 0, latencyUs / 1000, 2 * (latencyUs / 1000),
        2 * (latencyUs / 1000)⟩ ∧
    (latencyUs = 0 →
      calculateMoETimings 0 epRanks latencyUs bandwidthGBps computeUsPerToken skew =
        ⟨0, 0, 0, 0, 0⟩) := by
  have hdisp : calculateDispatchTimeMs 0 epRanks latencyUs bandwidthGBps =
      latencyUs / 1000 := by
    unfold calculateDispatchTimeMs
    norm_num
  have hcomp : calculateComputeTimeMs 0 epRanks computeUsPerToken skew = 0 := by
    unfold calculateComputeTimeMs
    norm_num
  have hmax : max (latencyUs / 1000 + latencyUs / 1000) (0:ℝ) =
      2 * (latencyUs / 1000) := by
    rw [max_eq_left (by linarith [div_nonneg hlat (by norm_num : (0:ℝ) ≤ 1000)])]
    ring
  constructor
  · simp only [calculateMoETimings, hdisp, hcomp, hmax, Timings.mk.injEq]
    exact ⟨trivial, trivial, trivial, by ring, trivial⟩
  · intro h0
    subst h0
    simp only [calculateMoETimings, hdisp, hcomp, Timings.mk.injEq]
    norm_num

/-- Concrete instantiation of `C7_amended` at the default parameters. -/
theorem C7_amended_witness :
    (1:ℝ) ≤ 16 ∧ (0:ℝ) ≤ 25 ∧ (0:ℝ) < 25 ∧
    (calculateMoETimings 0 16 25 25 0.45 0.1 =
      ⟨(25:ℝ) / 1000, 0, 25 / 1000, 2 * ((25:ℝ) / 1000), 2 * ((25:ℝ) / 1000)⟩ ∧
    ((25:ℝ) = 0 → calculateMoETimings 0 16 25 25 0.45 0.1 = ⟨0, 0, 0, 0, 0⟩)) :=
  ⟨by norm_num, by norm_num, by norm_num,
    C7_amended 16 25 25 0.45 0.1 (by norm_num) (by norm_num) (by norm_num)⟩

/-- Claim C2: for nonnegative phase durations, the overlapped (DBO) schedule
satisfies `dispatchA.start = 0`, `dispatchB.start = dispatchA.end =
dispatchMs`, `computeA.start = dispatchMs`,
`computeB.start = max dispatchB.end computeA.end`,
`combineA.start = max computeA.end dispatchB.end`,
`combineB.start = max computeB.end combineA.end`, the total duration is
`max combineA.end combineB.end`, and in particular
`combineB.start ≥ combineA.end`. -/
theorem C2_overlapped_schedule_recurrences (t : Timings)
    (hd : 0 ≤ t.dispatchMs) (hc : 0 ≤ t.computeMs) (hb : 0 ≤ t.combineMs) :
    ∃ dA cA mA dB cB mB : ScheduleBlock,
      (buildSchedule t true false).batchA = [dA, cA, mA] ∧
      (buildSchedule t true false).batchB = [dB, cB, mB] ∧
      dA.start = 0 ∧
      dB.start = dA.endMs ∧
      dA.endMs = t.dispatchMs ∧
      cA.start = t.dispatchMs ∧
      cB.start = max dB.endMs cA.endMs ∧
      mA.start = max cA.endMs dB.endMs ∧
      mB.start = max cB.endMs mA.endMs ∧
      calculateTotalDuration (buildSchedule t true false) true =
        some (max mA.endMs mB.endMs) ∧
      mA.endMs ≤ mB.start := by
  refine ⟨⟨Phase.dispatch, 0, t.dispatchMs⟩,
    ⟨Phase.compute, t.dispatchMs, t.computeMs⟩,
    ⟨Phase.combine, max (t.dispatchMs + t.computeMs) (t.dispatchMs + t.dispatchMs),
      t.combineMs⟩,
    ⟨Phase.dispatch, t.dispatchMs, t.dispatchMs⟩,
    ⟨Phase.compute, max (t.dispatchMs + t.dispatchMs) (t.dispatchMs + t.computeMs),
      t.computeMs⟩,
    ⟨Phase.combine,
      max (max (t.dispatchMs + t.dispatchMs) (t.dispatchMs + t.computeMs) + t.computeMs)
        (max (t.dispatchMs + t.computeMs) (t.dispatchMs + t.dispatchMs) + t.combineMs),
      t.combineMs⟩, ?_, ?_, rfl, ?_, ?_, rfl, rfl, rfl, rfl, ?_, ?_⟩
  · rw [buildSchedule_dbo_eq]
  · rw [buildSchedule_dbo_eq]
  · simp [ScheduleBlock.endMs]
  · simp [ScheduleBlock.endMs]
  · rw [buildSchedule_dbo_eq]
    simp [calculateTotalDuration, ScheduleBlock.endMs]
  · exact le_max_right _ _

/-- Concrete instantiation of `C2_overlapped_schedule_recurrences` at
`dispatchMs = 1`, `computeMs = 2`, `combineMs = 1`. -/
theorem C2_overlapped_schedule_recurrences_witness :
    (0:ℝ) ≤ (Timings.mk 1 2 1 4 4).dispatchMs ∧
    (0:ℝ) ≤ (Timings.mk 1 2 1 4 4).computeMs ∧
    (0:ℝ) ≤ (Timings.mk 1 2 1 4 4).combineMs ∧
    (∃ dA cA mA dB cB mB : ScheduleBlock,
      (buildSchedule (Timings.mk 1 2 1 4 4) true false).batchA = [dA, cA, mA] ∧
      (buildSchedule (Timings.mk 1 2 1 4 4) true false).batchB = [dB, cB, mB] ∧
      dA.start = 0 ∧
      dB.start = dA.endMs ∧
      dA.endMs = (Timings.mk 1 2 1 4 4).dispatchMs ∧
      cA.start = (Timings.mk 1 2 1 4 4).dispatchMs ∧
      cB.start = max dB.endMs cA.endMs ∧
      mA.start = max cA.endMs dB.endMs ∧
      mB.start = max cB.endMs mA.endMs ∧
      calculateTotalDuration (buildSchedule (Timings.mk 1 2 1 4 4) true false) true =
        some (max mA.endMs mB.endMs) ∧
      mA.endMs ≤ mB.start) :=
  ⟨by norm_num, by norm_num, by norm_num,
    C2_overlapped_schedule_recurrences (Timings.mk 1 2 1 4 4)
      (by norm_num) (by norm_num) (by norm_num)⟩

/-- Claim C10: under the overlapped policy with nonnegative durations, the
four fabric blocks (dispatch A, dispatch B, combine A, combine B) occupy
pairwise non-overlapping intervals in that order, and the two compute blocks
are also non-overlapping: each modeled resource runs at most one block at any
instant. -/
theorem C10_fabric_and_compute_serialized (t : Timings)
    (hd : 0 ≤ t.dispatchMs) (hc : 0 ≤ t.computeMs) (hb : 0 ≤ t.combineMs) :
    ∃ dA cA mA dB cB mB : ScheduleBlock,
      (buildSchedule t true false).batchA = [dA, cA, mA] ∧
      (buildSchedule t true false).batchB = [dB, cB, mB] ∧
      dA.start ≤ dA.endMs ∧ dB.start ≤ dB.endMs ∧
      mA.start ≤ mA.endMs ∧ mB.start ≤ mB.endMs ∧
      cA.start ≤ cA.endMs ∧ cB.start ≤ cB.endMs ∧
      dA.endMs ≤ dB.start ∧ dA.endMs ≤ mA.start ∧ dA.endMs ≤ mB.start ∧
      dB.endMs ≤ mA.start ∧ dB.endMs ≤ mB.start ∧ mA.endMs ≤ mB.start ∧
      cA.endMs ≤ cB.start := by
  refine ⟨⟨Phase.dispatch, 0, t.dispatchMs⟩,
    ⟨Phase.compute, t.dispatchMs, t.computeMs⟩,
    ⟨Phase.combine, max (t.dispatchMs + t.computeMs) (t.dispatchMs + t.dispatchMs),
      t.combineMs⟩,
    ⟨Phase.dispatch, t.dispatchMs, t.dispatchMs⟩,
    ⟨Phase.compute, max (t.dispatchMs + t.dispatchMs) (t.dispatchMs + t.computeMs),
      t.computeMs⟩,
    ⟨Phase.combine,
      max (max (t.dispatchMs + t.dispatchMs) (t.dispatchMs + t.computeMs) + t.computeMs)
        (max (t.dispatchMs + t.computeMs) (t.dispatchMs + t.dispatchMs) + t.combineMs),
      t.combineMs⟩,
    buildSchedule_dbo_eq t ▸ rfl, buildSchedule_dbo_eq t ▸ rfl,
    ?_, ?_, ?_, ?_, ?_, ?_, ?_, ?_, ?_, ?_, ?_, ?_, ?_⟩ <;>
    simp only [ScheduleBlock.endMs]
  · linarith
  · linarith
  · linarith
  · linarith
  · linarith
  · linarith
  · linarith
  · have h := le_max_right (t.dispatchMs + t.computeMs) (t.dispatchMs + t.dispatchMs)
    linarith
  · have h1 := le_max_right
      (max (t.dispatchMs + t.dispatchMs) (t.dispatchMs + t.computeMs) + t.computeMs)
      (max (t.dispatchMs + t.computeMs) (t.dispatchMs + t.dispatchMs) + t.combineMs)
    have h2 := le_max_right (t.dispatchMs + t.computeMs) (t.dispatchMs + t.dispatchMs)
    linarith
  · have h := le_max_right (t.dispatchMs + t.computeMs) (t.dispatchMs + t.dispatchMs)
    linarith
  · have h1 := le_max_right
      (max (t.dispatchMs + t.dispatchMs) (t.dispatchMs + t.computeMs) + t.computeMs)
      (max (t.dispatchMs + t.computeMs) (t.dispatchMs + t.dispatchMs) + t.combineMs)
    have h2 := le_max_right (t.dispatchMs + t.computeMs) (t.dispatchMs + t.dispatchMs)
    linarith
  · exact le_max_right _ _
  · have h := le_max_right (t.dispatchMs + t.dispatchMs) (t.dispatchMs + t.computeMs)
    linarith

/-- Concrete instantiation of `C10_fabric_and_compute_serialized` at
`dispatchMs = 1`, `computeMs = 2`, `combineMs = 1`. -/
theorem C10_fabric_and_compute_serialized_witness :
    (0:ℝ) ≤ (Timings.mk 1 2 1 4 4).dispatchMs ∧
    (0:ℝ) ≤ (Timings.mk 1 2 1 4 4).computeMs ∧
    (0:ℝ) ≤ (Timings.mk 1 2 1 4 4).combineMs ∧
    (∃ dA cA mA dB cB mB : ScheduleBlock,
      (buildSchedule (Timings.mk 1 2 1 4 4) true false).batchA = [dA, cA, mA] ∧
      (buildSchedule (Timings.mk 1 2 1 4 4) true false).batchB = [dB, cB, mB] ∧
      dA.start ≤ dA.endMs ∧ dB.start ≤ dB.endMs ∧
      mA.start ≤ mA.endMs ∧ mB.start ≤ mB.endMs ∧
      cA.start ≤ cA.endMs ∧ cB.start ≤ cB.endMs ∧
      dA.endMs ≤ dB.start ∧ dA.endMs ≤ mA.start ∧ dA.endMs ≤ mB.start ∧
      dB.endMs ≤ mA.start ∧ dB.endMs ≤ mB.start ∧ mA.endMs ≤ mB.start ∧
      cA.endMs ≤ cB.start) :=
  ⟨by norm_num, by norm_num, by norm_num,
    C10_fabric_and_compute_serialized (Timings.mk 1 2 1 4 4)
      (by norm_num) (by norm_num) (by norm_num)⟩

/-- Claim C8 (counterexample): the communication-share comparison fails for a
valid parameter set — at `epRanks = 1`, `latencyUs = 0`, `bandwidthGBps = 25`,
`computeUsPerToken = 0.9`, `skew = 0`, the fraction
`(dispatchMs + combineMs) / sequentialTotalMs` at `tokenCount = 1048576`
exceeds the fraction at `tokenCount = 256` by more than `0.01`. -/
theorem C8_counterexample :
    ¬ (((calculateMoETimings 1048576 1 0 25 0.9 0).dispatchMs +
          (calculateMoETimings 1048576 1 0 25 0.9 0).combineMs) /
            (calculateMoETimings 1048576 1 0 25 0.9 0).sequentialTotalMs ≤
        ((calculateMoETimings 256 1 0 25 0.9 0).dispatchMs +
          (calculateMoETimings 256 1 0 25 0.9 0).combineMs) /
            (calculateMoETimings 256 1 0 25 0.9 0).sequentialTotalMs + 0.01) := by
  simp only [calculateMoETimings, calculateDispatchTimeMs, calculateComputeTimeMs,
    calculateStragglerFactor, calculateBytesPerToken_eq, MOE_CONFIG.TOP_K_EXPERTS]
  rw [sqrt_max_one_256, sqrt_max_one_1048576, Real.logb_one]
  norm_num

/-- Claim C8 (amended): for the parameter set exercised by the source's own
self-test (`epRanks = 16`, `latencyUs = 25`, `bandwidthGBps = 25`,
`computeUsPerToken = 0.45`, `skew = 0.1`), the communication fraction
`(dispatchMs + combineMs) / sequentialTotalMs` at `tokenCount = 1048576` is at
most the fraction at `tokenCount = 256` plus `0.01`. -/
theorem C8_amended_comm_share :
    ((calculateMoETimings 1048576 16 25 25 0.45 0.1).dispatchMs +
        (calculateMoETimings 1048576 16 25 25 0.45 0.1).combineMs) /
          (calculateMoETimings 1048576 16 25 25 0.45 0.1).sequentialTotalMs ≤
      ((calculateMoETimings 256 16 25 25 0.45 0.1).dispatchMs +
        (calculateMoETimings 256 16 25 25 0.45 0.1).combineMs) /
          (calculateMoETimings 256 16 25 25 0.45 0.1).sequentialTotalMs + 0.01 := by
  simp only [calculateMoETimings, calculateDispatchTimeMs, calculateComputeTimeMs,
    calculateStragglerFactor, calculateBytesPerToken_eq, MOE_CONFIG.TOP_K_EXPERTS]
  rw [sqrt_max_one_256, sqrt_max_one_1048576, logb_two_sixteen]
  norm_num

/-- Claim C9: when the sampled LL and HT cost values coincide at every sample
point (as they do for two kernel profiles with identical latency and
bandwidth), the crossover scan reports no crossover (`none`, never a negative
or non-finite threshold). -/
theorem C9_identical_curves_no_crossover (points : List CurvePoint)
    (h : ∀ p ∈ points, p.llTime = p.htTime) :
    findCrossoverTokens points = none := by
  induction points with
  | nil => rfl
  | cons p1 rest ih =>
    cases rest with
    | nil => rfl
    | cons p2 rest2 =>
      have h1 : p1.llTime = p1.htTime := h p1 (by simp)
      have hneg : ¬ (p1.llTime - p1.htTime < 0 ∧ 0 ≤ p2.llTime - p2.htTime) := by
        rintro ⟨hlt, -⟩
        rw [h1, sub_self] at hlt
        exact lt_irrefl 0 hlt
      simp only [findCrossoverTokens]
      rw [if_neg hneg]
      exact ih fun p hp => h p (List.mem_cons_of_mem _ hp)

/-- Concrete instantiation of `C9_identical_curves_no_crossover` on two
coinciding samples. -/
theorem C9_identical_curves_no_crossover_witness :
    (∀ p ∈ [CurvePoint.mk 8 1 1, CurvePoint.mk 64 2 2], p.llTime = p.htTime) ∧
    findCrossoverTokens [CurvePoint.mk 8 1 1, CurvePoint.mk 64 2 2] = none :=
  ⟨by
    intro p hp
    rcases List.mem_cons.mp hp with rfl | hp2
    · rfl
    · rcases List.mem_cons.mp hp2 with rfl | hp3
      · rfl
      · exact absurd hp3 (List.not_mem_nil p),
    C9_identical_curves_no_crossover [CurvePoint.mk 8 1 1, CurvePoint.mk 64 2 2]
      (by
        intro p hp
        rcases List.mem_cons.mp hp with rfl | hp2
        · rfl
        · rcases List.mem_cons.mp hp2 with rfl | hp3
          · rfl
          · exact absurd hp3 (List.not_mem_nil p))⟩

end MoEWidget
